import Mathlib

/-!
Verification of the `ai_eda` repository core against its specification.

The embedding models, as executable Lean definitions translated from
`src/aieda_python`:
  * JSON values (`JVal`), Python truthiness (`JVal.falsy`) and `dict.get`
    (`jget` / `jgetOr`);
  * number normalization and canonical wire keys (`cli.py`,
    `_normalize_number` / `_canonical_line`);
  * the reconciliation verifier (`cli.py`, `_verify_plan_against_schema`);
  * the command protocol registry (`protocol.py`, `client.py`);
  * the bridge command path, the timeout race and the WebSocket
    replacement lifecycle (`bridge_server.py`);
  * the apply-requirements flow precheck (`cli.py`,
    `cmd_apply_requirements`).

Python numbers are modelled as exact rationals: every float literal the
verifier compares is an exact binary64 rational, and Python compares
`int` and `float` by numeric value, which coincides with comparison in
`ℚ`.
-/

inductive JVal where
  | null : JVal
  | bool (b : Bool) : JVal
  | int (n : Int) : JVal
  | float (q : ℚ) : JVal
  | str (s : String) : JVal
  | arr (xs : List JVal) : JVal
  | obj (fields : List (String × JVal)) : JVal

namespace JVal

/- Decidable equality on JSON values (mutual recursion through the
nested lists, since automatic derivation does not handle the nesting). -/
mutual

def decEq : (a b : JVal) → Decidable (a = b)
  | .null, .null => .isTrue rfl
  | .bool a, .bool b =>
    match inferInstanceAs (Decidable (a = b)) with
    | .isTrue h => .isTrue (h ▸ rfl)
    | .isFalse h => .isFalse (fun hc => h (bool.inj hc))
  | .int a, .int b =>
    match inferInstanceAs (Decidable (a = b)) with
    | .isTrue h => .isTrue (h ▸ rfl)
    | .isFalse h => .isFalse (fun hc => h (int.inj hc))
  | .float a, .float b =>
    match inferInstanceAs (Decidable (a = b)) with
    | .isTrue h => .isTrue (h ▸ rfl)
    | .isFalse h => .isFalse (fun hc => h (float.inj hc))
  | .str a, .str b =>
    match inferInstanceAs (Decidable (a = b)) with
    | .isTrue h => .isTrue (h ▸ rfl)
    | .isFalse h => .isFalse (fun hc => h (str.inj hc))
  | .arr a, .arr b =>
    match decEqList a b with
    | .isTrue h => .isTrue (h ▸ rfl)
    | .isFalse h => .isFalse (fun hc => h (arr.inj hc))
  | .obj a, .obj b =>
    match decEqObj a b with
    | .isTrue h => .isTrue (h ▸ rfl)
    | .isFalse h => .isFalse (fun hc => h (obj.inj hc))
  | .null, .bool _ => .isFalse nofun
  | .null, .int _ => .isFalse nofun
  | .null, .float _ => .isFalse nofun
  | .null, .str _ => .isFalse nofun
  | .null, .arr _ => .isFalse nofun
  | .null, .obj _ => .isFalse nofun
  | .bool _, .null => .isFalse nofun
  | .bool _, .int _ => .isFalse nofun
  | .bool _, .float _ => .isFalse nofun
  | .bool _, .str _ => .isFalse nofun
  | .bool _, .arr _ => .isFalse nofun
  | .bool _, .obj _ => .isFalse nofun
  | .int _, .null => .isFalse nofun
  | .int _, .bool _ => .isFalse nofun
  | .int _, .float _ => .isFalse nofun
  | .int _, .str _ => .isFalse nofun
  | .int _, .arr _ => .isFalse nofun
  | .int _, .obj _ => .isFalse nofun
  | .float _, .null => .isFalse nofun
  | .float _, .bool _ => .isFalse nofun
  | .float _, .int _ => .isFalse nofun
  | .float _, .str _ => .isFalse nofun
  | .float _, .arr _ => .isFalse nofun
  | .float _, .obj _ => .isFalse nofun
  | .str _, .null => .isFalse nofun
  | .str _, .bool _ => .isFalse nofun
  | .str _, .int _ => .isFalse nofun
  | .str _, .float _ => .isFalse nofun
  | .str _, .arr _ => .isFalse nofun
  | .str _, .obj _ => .isFalse nofun
  | .arr _, .null => .isFalse nofun
  | .arr _, .bool _ => .isFalse nofun
  | .arr _, .int _ => .isFalse nofun
  | .arr _, .float _ => .isFalse nofun
  | .arr _, .str _ => .isFalse nofun
  | .arr _, .obj _ => .isFalse nofun
  | .obj _, .null => .isFalse nofun
  | .obj _, .bool _ => .isFalse nofun
  | .obj _, .int _ => .isFalse nofun
  | .obj _, .float _ => .isFalse nofun
  | .obj _, .str _ => .isFalse nofun
  | .obj _, .arr _ => .isFalse nofun

def decEqList : (a b : List JVal) → Decidable (a = b)
  | [], [] => .isTrue rfl
  | [], _ :: _ => .isFalse nofun
  | _ :: _, [] => .isFalse nofun
  | x :: xs, y :: ys =>
    match decEq x y with
    | .isFalse h => .isFalse (fun hc => h (List.cons.inj hc).1)
    | .isTrue h1 =>
      match decEqList xs ys with
      | .isTrue h2 => .isTrue (by rw [h1, h2])
      | .isFalse h => .isFalse (fun hc => h (List.cons.inj hc).2)

def decEqObj : (a b : List (String × JVal)) → Decidable (a = b)
  | [], [] => .isTrue rfl
  | [], _ :: _ => .isFalse nofun
  | _ :: _, [] => .isFalse nofun
  | (k₁, v₁) :: xs, (k₂, v₂) :: ys =>
    match inferInstanceAs (Decidable (k₁ = k₂)) with
    | .isFalse h => .isFalse (fun hc => h (congrArg Prod.fst (List.cons.inj hc).1))
    | .isTrue hk =>
      match decEq v₁ v₂ with
      | .isFalse h => .isFalse (fun hc => h (congrArg Prod.snd (List.cons.inj hc).1))
      | .isTrue hv =>
        match decEqObj xs ys with
        | .isTrue ht => .isTrue (by rw [hk, hv, ht])
        | .isFalse h => .isFalse (fun hc => h (List.cons.inj hc).2)

end

instance : DecidableEq JVal := decEq

end JVal

example : (JVal.arr [.int 3] = JVal.arr [.int 3]) := by decide
example : (JVal.obj [("a", .float 5)] ≠ JVal.obj [("a", .int 5)]) := by decide

/-- Python truthiness: `bool(v)` is `false` exactly for `None`, `False`,
numeric zero, and empty strings/lists/dicts.  `falsy v` models `not v`. -/
def JVal.falsy : JVal → Bool
  | .null => true
  | .bool b => !b
  | .int n => n == 0
  | .float q => q == 0
  | .str s => s.isEmpty
  | .arr xs => xs.isEmpty
  | .obj fs => fs.isEmpty

/-- First-match association lookup, the model of lookup in a Python
`dict` (whose keys are unique). -/
def lookupField : List (String × JVal) → String → Option JVal
  | [], _ => none
  | (k, v) :: rest, key => if k = key then some v else lookupField rest key

/-- `d.get(key)` when `d` is a JSON object; `none` both for a missing
key and for a non-object (callers that would raise in Python instead
test `isObj` explicitly). -/
def jget : JVal → String → Option JVal
  | .obj fs, key => lookupField fs key
  | _, _ => none

/-- `d.get(key)`, with Python `None` standing in for a missing key. -/
def jgetOr (v : JVal) (key : String) : JVal := (jget v key).getD .null

/-- `isinstance(v, dict)`. -/
def JVal.isObj : JVal → Bool
  | .obj _ => true
  | _ => false

/-- The JSON list stored under `key`, or `[]` when missing or not a
list (mirroring loops of the form `if isinstance(x, list): for item in x`). -/
def listField (v : JVal) (key : String) : List JVal :=
  match jget v key with
  | some (.arr l) => l
  | _ => []

/-!  ### Number normalization and canonical wire keys (`cli.py` 94-116)  -/

/-- `_normalize_number` (`cli.py` lines 94-101): booleans and
non-numbers are rejected, ints pass through, and floats are collapsed
to ints when integral.  Numbers are exact rationals here, so the
collapse preserves the value; the branch is kept to mirror the source,
whose point is that Python compares the results numerically. -/
def normalizeNumber : JVal → Option ℚ
  | .bool _ => none
  | .int n => some (n : ℚ)
  | .float q => some (if q.den = 1 then (q.num : ℚ) else q)
  | _ => none

/-- A normalized coordinate pair. -/
abbrev Point := ℚ × ℚ

/-- Python `<` on coordinate pairs: lexicographic, with numeric
comparison on each coordinate. -/
def pairLt (p q : Point) : Bool :=
  if p.1 < q.1 then true else if p.1 = q.1 then decide (p.2 < q.2) else false

/-- Python `<=` on tuples of pairs: lexicographic; a strict prefix is
smaller. -/
def lineLe : List Point → List Point → Bool
  | [], _ => true
  | _ :: _, [] => false
  | p :: ps, q :: qs => if p = q then lineLe ps qs else pairLt p q

/-- `forward if forward <= backward else backward`: the
direction-independent representative of a point sequence. -/
def canonPoints (ps : List Point) : List Point :=
  if lineLe ps ps.reverse then ps else ps.reverse

/-- Pair up a flat coordinate list `[x0, y0, x1, y1, ...]`, normalizing
each coordinate; `none` as soon as one entry is not a number
(`if x is None or y is None: return None`). -/
def collectPoints : List JVal → Option (List Point)
  | [] => some []
  | [_] => none
  | x :: y :: rest =>
    match normalizeNumber x, normalizeNumber y, collectPoints rest with
    | some a, some b, some ps => some ((a, b) :: ps)
    | _, _, _ => none

/-- `_canonical_line` (`cli.py` lines 104-116): reject non-lists, lists
shorter than two points and odd-length lists, then normalize the
coordinates and keep the lexicographically smaller of the forward and
reversed point sequences. -/
def canonicalLine : JVal → Option (List Point)
  | .arr line =>
    if line.length < 4 ∨ line.length % 2 ≠ 0 then none
    else (collectPoints line).map canonPoints
  | _ => none

/-!  ### Reconciliation verifier (`cli.py` `_verify_plan_against_schema`, lines 136-250)  -/

/-- Expected/actual component tuple `(uuid, libraryUuid, x, y)`. -/
abbrev CompTuple := String × String × ℚ × ℚ

/-- Canonical wire key paired with its net label. -/
abbrev WireKey := List Point × String

/-- `isinstance(v, str) and v`: the value, when it is a non-empty
string. -/
def asNonemptyStr : Option JVal → Option String
  | some (.str s) => if s.isEmpty then none else some s
  | _ => none

/-- The expected tuple of one `create_component` operation (`cli.py`
lines 145-165): the operation must be a dict whose `kind` is the string
`create_component` and whose `input` is a dict with non-empty string
`uuid` and `libraryUuid` and numeric `x`, `y`; anything else
contributes nothing (a non-dict `op` or `input` yields no lookups). -/
def extractCompOp (op : JVal) : Option CompTuple :=
  if jget op "kind" = some (.str "create_component") then
    match jget op "input" with
    | some input =>
      match asNonemptyStr (jget input "uuid"), asNonemptyStr (jget input "libraryUuid"),
            (jget input "x").bind normalizeNumber,
            (jget input "y").bind normalizeNumber with
      | some uuid, some libraryUuid, some x, some y => some (uuid, libraryUuid, x, y)
      | _, _, _, _ => none
    | none => none
  else none

/-- The expected key of one `create_wire` operation (`cli.py` lines
166-171): a non-empty string `net` plus a canonicalizable `line`. -/
def extractWireOp (op : JVal) : Option WireKey :=
  if jget op "kind" = some (.str "create_wire") then
    match jget op "input" with
    | some input =>
      match asNonemptyStr (jget input "net"), canonicalLine (jgetOr input "line") with
      | some net, some canonical => some (canonical, net)
      | _, _ => none
    | none => none
  else none

/-- `payload.get("operations")` when it is a list, else the loop body
never runs. -/
def opsList (payload : JVal) : List JVal := listField payload "operations"

def expectedComponents (payload : JVal) : List CompTuple :=
  (opsList payload).filterMap extractCompOp

def expectedWires (payload : JVal) : List WireKey :=
  (opsList payload).filterMap extractWireOp

/-- The nets referenced by expected wires: the source adds `net` to the
`expected_nets` set exactly when it appends an expected wire. -/
def expectedNets (payload : JVal) : List String :=
  (expectedWires payload).map Prod.snd

/-- `item.get("component") if isinstance(item.get("component"), dict)
else {}` (`cli.py` line 190). -/
def componentObjOf (item : JVal) : JVal :=
  match jget item "component" with
  | some c => if c.isObj then c else .obj []
  | none => .obj []

/-- One snapshot component entry (`cli.py` lines 186-203): `uuid` and
`libraryUuid` come from the nested `component` object (replaced by `{}`
when absent or not a dict), the position from the entry itself. -/
def extractActualComp (item : JVal) : Option CompTuple :=
  if !item.isObj then none
  else
    match asNonemptyStr (jget (componentObjOf item) "uuid"),
          asNonemptyStr (jget (componentObjOf item) "libraryUuid"),
          (jget item "x").bind normalizeNumber,
          (jget item "y").bind normalizeNumber with
    | some uuid, some libraryUuid, some x, some y => some (uuid, libraryUuid, x, y)
    | _, _, _, _ => none

/-- One snapshot wire entry (`cli.py` lines 206-214). -/
def extractActualWire (item : JVal) : Option WireKey :=
  if !item.isObj then none
  else
    match asNonemptyStr (jget item "net"), canonicalLine (jgetOr item "line") with
    | some net, some canonical => some (canonical, net)
    | _, _ => none

/-- `read_schema_result["result"]["schema"]` when present and a dict
(`cli.py` lines 173-179); `none` triggers the malformed-snapshot error. -/
def schemaOf (readSchemaResult : JVal) : Option JVal :=
  match jget readSchemaResult "result" with
  | some r =>
    match jget r "schema" with
    | some s => if s.isObj then some s else none
    | none => none
  | none => none

/-- The actual component set.  The source stores these in a Python
`set`; a list with the same members is used here, which leaves
membership (the only thing `ok` and the missing lists depend on)
unchanged. -/
def actualComponents (schema : JVal) : List CompTuple :=
  (listField schema "components").filterMap extractActualComp

def actualWires (schema : JVal) : List WireKey :=
  (listField schema "wires").filterMap extractActualWire

def actualNets (schema : JVal) : List String :=
  (actualWires schema).map Prod.snd

/-- The verification report.  `schemaError` is the early return
`{"ok": False, "error": "read_schema result does not contain a schema
object"}`; `report` carries `ok` and the three missing lists (the
source additionally sorts and deduplicates `missing_nets` and reports
counts, which no claim depends on). -/
inductive VerifyResult where
  | schemaError
  | report (ok : Bool) (missingComponents : List CompTuple)
      (missingWires : List WireKey) (missingNets : List String)
  deriving DecidableEq

/-- `_verify_plan_against_schema` (`cli.py` lines 136-250):
`ok` is `not missing_components and not missing_wires and not
missing_nets`. -/
def verifyPlanAgainstSchema (payload readSchemaResult : JVal) : VerifyResult :=
  match schemaOf readSchemaResult with
  | none => .schemaError
  | some schema =>
    let missingComponents := (expectedComponents payload).filter
      (fun c => decide (c ∉ actualComponents schema))
    let missingWires := (expectedWires payload).filter
      (fun w => decide (w ∉ actualWires schema))
    let missingNets := (expectedNets payload).filter
      (fun n => decide (n ∉ actualNets schema))
    .report (missingComponents.isEmpty && missingWires.isEmpty && missingNets.isEmpty)
      missingComponents missingWires missingNets

/-- The `ok` field of a verification report. -/
def reportOk : VerifyResult → Bool
  | .schemaError => false
  | .report ok _ _ _ => ok

/-!  ### Integral-float collapse as a substitution (claim C7)  -/

mutual

/- Replace every float of integral value by the equal int, everywhere in
a JSON document: the representation change whose invisibility to the
verifier claim C7 asserts. -/
def intify : JVal → JVal
  | .float q => if q.den = 1 then .int q.num else .float q
  | .arr xs => .arr (intifyList xs)
  | .obj fs => .obj (intifyObj fs)
  | .null => .null
  | .bool b => .bool b
  | .int n => .int n
  | .str s => .str s

def intifyList : List JVal → List JVal
  | [] => []
  | x :: xs => intify x :: intifyList xs

def intifyObj : List (String × JVal) → List (String × JVal)
  | [] => []
  | (k, v) :: fs => (k, intify v) :: intifyObj fs

end

/-!  ### Command protocol (`protocol.py`, `client.py`)  -/

/-- `SUPPORTED_ACTIONS` (`protocol.py` lines 11-18). -/
def SUPPORTED_ACTIONS : List String :=
  ["check_auth", "get_runtime_status", "search_component",
   "read_schema", "update_schema", "list_components"]

/-- `PROTOCOL_VERSION` (`protocol.py` line 9). -/
def PROTOCOL_VERSION : String := "1.0.0"

structure CommandMeta where
  confirm : Bool := false
  dry_run : Bool := false
  continue_on_error : Bool := false

/-- `BridgeCommand` (`protocol.py` lines 37-62); the generated unique
`id` is an ordinary field here. -/
structure BridgeCommand where
  action : String
  payload : JVal := .obj []
  meta : CommandMeta := {}
  id : String

/-- The wire envelope built by `BridgeCommand.to_json` once validation
has passed (`protocol.py` lines 51-62). -/
def commandJson (c : BridgeCommand) : JVal :=
  .obj [("id", .str c.id), ("type", .str "command"), ("action", .str c.action),
        ("payload", c.payload),
        ("meta", .obj [("confirm", .bool c.meta.confirm),
                       ("dry_run", .bool c.meta.dry_run),
                       ("continue_on_error", .bool c.meta.continue_on_error)]),
        ("protocol_version", .str PROTOCOL_VERSION)]

/-- `BridgeCommand.to_json` (`protocol.py` lines 49-62): `validate`
raises `ValueError` for an action outside the registry, before any
envelope is built.  (The source message also quotes the action and
lists the allowed actions.) -/
def BridgeCommand.to_json (c : BridgeCommand) : Except String JVal :=
  if c.action ∈ SUPPORTED_ACTIONS then .ok (commandJson c)
  else .error ("Unsupported action " ++ c.action)

/-- `BridgeClient.send_command` (`client.py` lines 37-40): serialize,
then POST the envelope.  The transport is abstracted as `post`; when
`to_json` raises, `post` is never consulted. -/
def send_command (post : JVal → JVal) (c : BridgeCommand) : Except String JVal :=
  match c.to_json with
  | .error e => .error e
  | .ok j => .ok (post j)

/-!  ### Bridge server command path (`bridge_server.py` lines 169-216, 133-161)  -/

/-- A pending reply slot (an `asyncio.Future`): `waiting` until it is
resolved by a correlated result or failed with
`ConnectionError("Plugin disconnected")`. -/
inductive FutState where
  | waiting
  | resolvedResult (v : JVal)
  | failedDisconnect (msg : String)
  deriving DecidableEq

/-- The bridge globals touched by `handle_command` and
`_handle_plugin_message`: `_plugin_ws` abstracted to a connected flag,
`_plugin_meta`, and `_pending` as an association list with unique keys
(a Python dict). -/
structure BridgeSt where
  pluginConnected : Bool
  pluginMeta : List (String × JVal)
  pending : List (JVal × FutState)
  deriving DecidableEq

/-- `_pending[cmd_id] = fut`: replace in place, or append a new entry. -/
def pendingInsert : List (JVal × FutState) → JVal → FutState → List (JVal × FutState)
  | [], key, v => [(key, v)]
  | (k, w) :: rest, key, v =>
    if k = key then (k, v) :: rest else (k, w) :: pendingInsert rest key v

/-- `_pending.pop(cmd_id, None)`: drop the entry under the key. -/
def pendingErase : List (JVal × FutState) → JVal → List (JVal × FutState)
  | [], _ => []
  | (k, w) :: rest, key => if k = key then rest else (k, w) :: pendingErase rest key

/-- Dict lookup in `_pending`. -/
def pendingLookup : List (JVal × FutState) → JVal → Option FutState
  | [], _ => none
  | (k, w) :: rest, key => if k = key then some w else pendingLookup rest key

/-- An HTTP response produced with `_json_response`. -/
structure HttpResp where
  status : Nat
  body : JVal
  deriving DecidableEq

/-- `_json_response({"ok": False, "error": msg}, status)`. -/
def errResp (msg : String) (status : Nat) : HttpResp :=
  ⟨status, .obj [("ok", .bool false), ("error", .str msg)]⟩

/-- The 504 timeout reply (`bridge_server.py` lines 207-212). -/
def timeoutResponse : HttpResp :=
  errResp "Command timed out waiting for plugin response" 504

/-- The 502 reply for a `ConnectionError` raised into the await
(`bridge_server.py` lines 213-216). -/
def disconnectResponse (msg : String) : HttpResp := errResp msg 502

/-- Where `handle_command` stands after the transmission attempt. -/
inductive SendPhase where
  | reply (resp : HttpResp)
  | raisedAttributeError
  | awaitingReply (cmdId : JVal)
  deriving DecidableEq

/-- `handle_command` up to and including the transmission
(`bridge_server.py` lines 169-201).  `body` is the parsed JSON body
(`none` when `request.json()` raised and the 400 branch fired), `sendOk`
whether `_plugin_ws.send_str` succeeded, `excMsg` the exception text
when it did not.  Returns the new state, the phase reached, and the
messages transmitted to the plugin.  A non-dict JSON body reaches
`body.get("id")`, which raises an uncaught `AttributeError` (the
surrounding `try` only covers `request.json()`); aiohttp then answers
with a plain 500, not a structured JSON error.  The 400 message in the
source quotes the word id. -/
def handleCommandSend (st : BridgeSt) (body : Option JVal) (sendOk : Bool)
    (excMsg : String) : BridgeSt × SendPhase × List JVal :=
  if !st.pluginConnected then
    (st, .reply (errResp "Plugin not connected" 503), [])
  else match body with
  | none => (st, .reply (errResp "Invalid JSON body" 400), [])
  | some b =>
    if !b.isObj then (st, .raisedAttributeError, [])
    else
      let cmdId := jgetOr b "id"
      if cmdId.falsy then
        (st, .reply (errResp "Command must include an id field" 400), [])
      else
        let st1 := { st with pending := pendingInsert st.pending cmdId .waiting }
        if sendOk then (st1, .awaitingReply cmdId, [b])
        else ({ st1 with pending := pendingErase st1.pending cmdId },
              .reply (errResp ("Failed to send to plugin: " ++ excMsg) 502), [])

/-- `COMMAND_TIMEOUT_S` (`bridge_server.py` line 57). -/
def COMMAND_TIMEOUT_S : ℚ := 30

/-- How a pending future got resolved, when it did. -/
inductive FutEvent where
  | result (v : JVal)
  | disconnect (msg : String)
  deriving DecidableEq

/-- `asyncio.wait_for(fut, COMMAND_TIMEOUT_S)`: a resolution strictly
before the deadline wins, otherwise the timeout fires.  `arrival` is
the time and kind of the future's resolution, `none` if it never
resolves. -/
def raceDeadline (arrival : Option (ℚ × FutEvent)) : Option FutEvent :=
  match arrival with
  | none => none
  | some (t, ev) => if t < COMMAND_TIMEOUT_S then some ev else none

/-- The tail of `handle_command` (`bridge_server.py` lines 203-216):
deliver the result, turn a `ConnectionError` into a 502, or - on
timeout - pop the pending entry and answer 504.  On the result path the
entry was already popped by `_handle_plugin_message`; `st` is the state
at the moment the await returns. -/
def handleCommandAwait (st : BridgeSt) (cmdId : JVal)
    (arrival : Option (ℚ × FutEvent)) : BridgeSt × HttpResp :=
  match raceDeadline arrival with
  | some (.result v) => (st, ⟨200, v⟩)
  | some (.disconnect msg) => (st, disconnectResponse msg)
  | none => ({ st with pending := pendingErase st.pending cmdId }, timeoutResponse)

/-- Insert-or-replace for string-keyed JSON object fields. -/
def fieldInsert : List (String × JVal) → String → JVal → List (String × JVal)
  | [], k, v => [(k, v)]
  | (k0, v0) :: rest, k, v =>
    if k0 = k then (k0, v) :: rest else (k0, v0) :: fieldInsert rest k v

/-- Python `dict.update`: the right operand wins. -/
def dictUpdate (base upd : List (String × JVal)) : List (String × JVal) :=
  upd.foldl (fun acc kv => fieldInsert acc kv.1 kv.2) base

/-- `_handle_plugin_message` (`bridge_server.py` lines 133-161).  `raw`
is the parsed plugin message (`none` for non-JSON, which is only
logged).  Returns the new state and, when a result message resolved a
waiting pending future, the `(id, data)` pair delivered to that
caller; every other message changes nothing or only the metadata.
The `bridge_connected` merge is modelled for dict payloads (a non-dict
payload would raise inside `dict.update`; no claim exercises that). -/
def handlePluginMessage (st : BridgeSt) (raw : Option JVal) :
    BridgeSt × Option (JVal × JVal) :=
  match raw with
  | none => (st, none)
  | some data =>
    if jgetOr data "type" = .str "event" ∧ jgetOr data "event" = .str "bridge_connected" then
      match jget data "payload" with
      | some (.obj fs) => ({ st with pluginMeta := dictUpdate st.pluginMeta fs }, none)
      | _ => (st, none)
    else if jgetOr data "type" = .str "pong" then (st, none)
    else if jgetOr data "type" = .str "result" then
      let cmdId := jgetOr data "id"
      if cmdId.falsy then (st, none)
      else match pendingLookup st.pending cmdId with
        | none => (st, none)
        | some fut =>
          let st1 := { st with pending := pendingErase st.pending cmdId }
          match fut with
          | .waiting => (st1, some (cmdId, data))
          | _ => (st1, none)
    else (st, none)

/-!  ### WebSocket replacement lifecycle (`ws_handler`, `bridge_server.py` lines 90-131)  -/

/-- The server state as the WebSocket handler tasks see it:
connections are numbered; `pluginWs` is `_plugin_ws` (the id of the
attached connection, if any); `closedConns` the connections that have
been closed; `pendingKeys` the key set of `_pending`; and `futures`
the ledger of every pending future ever created, keyed by command id -
callers keep observing their future after the map is cleared, so
failing a future survives in the ledger. -/
structure WsState where
  pluginWs : Option Nat
  closedConns : List Nat
  pluginMeta : List (String × JVal)
  pendingKeys : List JVal
  futures : List (JVal × FutState)
  deriving DecidableEq

/-- Lines 123-127: fail every still-waiting future of the current
pending map with `ConnectionError("Plugin disconnected")`. -/
def failPendingFutures (pendingKeys : List JVal) :
    List (JVal × FutState) → List (JVal × FutState) :=
  List.map (fun kf =>
    if kf.1 ∈ pendingKeys ∧ kf.2 = FutState.waiting
    then (kf.1, FutState.failedDisconnect "Plugin disconnected") else kf)

/-- The `finally` block of a handler whose receive loop has ended
(`bridge_server.py` lines 120-127): detach, clear the metadata, fail
every still-waiting pending future with
`ConnectionError("Plugin disconnected")`, clear the pending map. -/
def wsHandlerCleanup (st : WsState) : WsState :=
  { st with pluginWs := none, pluginMeta := [],
            futures := failPendingFutures st.pendingKeys st.futures,
            pendingKeys := [] }

/-- The accept path of `ws_handler` for a new connection `c`
(`bridge_server.py` lines 106-112).  When a live connection is
attached, `await _plugin_ws.close()` (line 108) wakes the replaced
handler's receive loop, and that handler then runs from its wake-up
through its entire `finally` block (lines 120-127) synchronously -
there is no await between the two - before the accepting handler
resumes; so the teardown completes inside the `close()` await, and
only then does the new handler attach (`_plugin_ws = ws;
_plugin_meta = {}`, lines 110-112). -/
def wsAccept (st : WsState) (c : Nat) : WsState :=
  match st.pluginWs with
  | some old =>
    if old ∈ st.closedConns then
      { st with pluginWs := some c, pluginMeta := [] }
    else
      { wsHandlerCleanup { st with closedConns := old :: st.closedConns } with
          pluginWs := some c, pluginMeta := [] }
  | none => { st with pluginWs := some c, pluginMeta := [] }

/-!  ### Apply-requirements flow (`cli.py` lines 119-133 and 411-528)  -/

/-- One candidate inspected by `_extract_available_update_operations`:
`some` exactly when the candidate is a dict whose `update_operations`
is a dict whose `available` is a list (of which the strings are kept). -/
def availableFromCandidate (candidate : JVal) : Option (List String) :=
  if !candidate.isObj then none
  else match jget candidate "update_operations" with
  | some ops =>
    match jget ops "available" with
    | some (.arr items) =>
      some (items.filterMap (fun it => match it with | .str s => some s | _ => none))
    | _ => none
  | none => none

/-- `_extract_available_update_operations` (`cli.py` lines 119-133):
try `result` itself, then `result.status`, then `result.capabilities`;
first candidate with a proper `available` list wins.  The source
collects a Python set; a list with the same members is kept. -/
def extractAvailableUpdateOperations (runtimeResult : JVal) : List String :=
  match jget runtimeResult "result" with
  | some root =>
    if !root.isObj then []
    else match availableFromCandidate root with
    | some s => s
    | none =>
      match availableFromCandidate (jgetOr root "status") with
      | some s => s
      | none =>
        match availableFromCandidate (jgetOr root "capabilities") with
        | some s => s
        | none => []
  | none => []

/-- The operation kinds every compiled plan needs (`cli.py` line 436),
already in sorted order, so that filtering it mirrors
`sorted({"create_component", "create_wire"} - available_ops)`. -/
def REQUIRED_UPDATE_OPS : List String := ["create_component", "create_wire"]

/-- Insertion sort on strings (for the `sorted(...)` calls). -/
def insertSorted (s : String) : List String → List String
  | [] => [s]
  | x :: xs => if s ≤ x then s :: x :: xs else x :: insertSorted s xs

def sortStrings (l : List String) : List String := l.foldr insertSorted []

/-- The argparse flags of `apply_requirements` that the flow branches
on. -/
structure ApplyArgs where
  confirm : Bool := false
  dry_run : Bool := false
  continue_on_error : Bool := false
  skip_pre_dry_run : Bool := false
  skip_verify : Bool := false
  no_audit : Bool := false
  deriving DecidableEq

/-- A successfully planned payload (`PlannedPayload` of
`requirements_planner.py`, which only claims about the apply flow
consume opaquely). -/
structure Planned where
  payload : JVal
  summary : JVal
  resolved_components : JVal
  deriving DecidableEq

/-- What one run of `cmd_apply_requirements` did: the JSON document
passed to `_output`, the process exit code, the `action` of every
command sent through the bridge client in order, and whether
`_write_audit_report` ran. -/
structure ApplyOutcome where
  output : JVal
  exitCode : Nat
  sentActions : List String
  auditWritten : Bool
  deriving DecidableEq

/-- `_error(message, details)` (`cli.py` lines 46-48). -/
def errOut (message : String) (details : JVal) : JVal :=
  .obj [("ok", .bool false), ("error", .str message), ("details", details)]

/-- Render a normalized number back to JSON the way the report carries
it: collapsed ints stay ints, non-integral values stay floats. -/
def ratToJVal (q : ℚ) : JVal := if q.den = 1 then .int q.num else .float q

def compTupleToJVal : CompTuple → JVal
  | (uuid, libraryUuid, x, y) =>
    .obj [("uuid", .str uuid), ("libraryUuid", .str libraryUuid),
          ("x", ratToJVal x), ("y", ratToJVal y)]

def wireKeyToJVal : WireKey → JVal
  | (canonical, net) =>
    .obj [("line", .arr (canonical.foldr
            (fun xy acc => ratToJVal xy.1 :: ratToJVal xy.2 :: acc) [])),
          ("net", .str net)]

/-- The full JSON document returned by `_verify_plan_against_schema`
(`cli.py` lines 176-179 and 235-250), as embedded into the apply
report; the counts under `actual` are set sizes, hence `dedup`. -/
def verifyPlanJson (payload readSchemaResult : JVal) : JVal :=
  match schemaOf readSchemaResult with
  | none =>
    .obj [("ok", .bool false),
          ("error", .str "read_schema result does not contain a schema object")]
  | some schema =>
    match verifyPlanAgainstSchema payload readSchemaResult with
    | .schemaError =>
      .obj [("ok", .bool false),
            ("error", .str "read_schema result does not contain a schema object")]
    | .report ok mc mw mn =>
      .obj [("ok", .bool ok),
            ("expected", .obj
              [("components", .int ((expectedComponents payload).length : Int)),
               ("wires", .int ((expectedWires payload).length : Int)),
               ("nets", .arr ((sortStrings (expectedNets payload).dedup).map .str))]),
            ("actual", .obj
              [("components", .int (((actualComponents schema).dedup.length : Int))),
               ("wires", .int (((actualWires schema).dedup.length : Int))),
               ("nets_count", .int (((actualNets schema).dedup.length : Int)))]),
            ("missing_components", .arr (mc.map compTupleToJVal)),
            ("missing_wires", .arr (mw.map wireKeyToJVal)),
            ("missing_nets", .arr ((sortStrings mn.dedup).map .str))]

/-- `cmd_apply_requirements` (`cli.py` lines 411-528) as a function of
its inputs: the flags; the planning outcome (`Except` mirrors the
`RequirementsError` early return; the planner lives in
`requirements_planner.py`, outside every claim) together with
`nSearches`, the number of `search_component` lookups the resolver
issued while planning (`_resolve_component_keyword` is the only command
the planner can send); and the bridge replies for the runtime precheck,
the preflight dry run, the apply and the post-apply schema read.
Writing `--output-payload-file` and the audit file path inside the
report are file IO and are not modelled; `auditWritten` records whether
`_write_audit_report` ran. -/
def cmdApplyRequirements (args : ApplyArgs) (planned : Except String Planned)
    (nSearches : Nat)
    (runtimeResult preDryRunResult applyResult readResult : JVal) : ApplyOutcome :=
  if !args.dry_run && !args.confirm then
    { output := errOut "apply_requirements requires confirmation"
        (.str "Pass --confirm to execute real changes, or --dry-run for validation only"),
      exitCode := 1, sentActions := [], auditWritten := false }
  else match planned with
  | .error e =>
    { output := errOut "Unable to build requirements payload" (.str e),
      exitCode := 1, sentActions := List.replicate nSearches "search_component",
      auditWritten := false }
  | .ok pl =>
    let baseSent := List.replicate nSearches "search_component" ++ ["get_runtime_status"]
    if (jgetOr runtimeResult "ok").falsy then
      { output := errOut "Runtime precheck failed" runtimeResult,
        exitCode := 1, sentActions := baseSent, auditWritten := false }
    else
      let available := extractAvailableUpdateOperations runtimeResult
      let missing := REQUIRED_UPDATE_OPS.filter (fun o => decide (o ∉ available))
      if !missing.isEmpty then
        { output := errOut "Runtime precheck failed: required operations unavailable"
            (.obj [("missing_operations", .arr (missing.map .str)),
                   ("available_operations", .arr ((sortStrings available.dedup).map .str)),
                   ("runtime_result", runtimeResult)]),
          exitCode := 1, sentActions := baseSent, auditWritten := false }
      else if !args.skip_pre_dry_run && (jgetOr preDryRunResult "ok").falsy then
        { output := .obj [("ok", .bool false), ("mode", .str "precheck_dry_run"),
            ("summary", pl.summary), ("resolved_components", pl.resolved_components),
            ("runtime_precheck", runtimeResult), ("pre_dry_run", preDryRunResult),
            ("bridge_result", .null), ("verification", .null)],
          exitCode := 1, sentActions := baseSent ++ ["update_schema"],
          auditWritten := !args.no_audit }
      else
        let sentThroughApply := baseSent
          ++ (if args.skip_pre_dry_run then [] else ["update_schema"])
          ++ ["update_schema"]
        let doVerify := !(jgetOr applyResult "ok").falsy
          && !args.skip_verify && !args.dry_run
        let verification : Option JVal :=
          if doVerify then
            some (if !(jgetOr readResult "ok").falsy
                  then verifyPlanJson pl.payload readResult
                  else .obj [("ok", .bool false),
                             ("error", .str "Unable to read schema for post-apply verification"),
                             ("read_schema_result", readResult)])
          else none
        let final_ok := !(jgetOr applyResult "ok").falsy
          && (match verification with
              | some v => !(jgetOr v "ok").falsy
              | none => true)
        { output := .obj [("ok", .bool final_ok),
            ("mode", .str (if args.dry_run then "dry_run" else "apply")),
            ("summary", pl.summary), ("resolved_components", pl.resolved_components),
            ("output_payload_file", .null),
            ("runtime_precheck", runtimeResult),
            ("pre_dry_run", if args.skip_pre_dry_run then .null else preDryRunResult),
            ("bridge_result", applyResult),
            ("verification", (verification).getD .null)],
          exitCode := if final_ok then 0 else 1,
          sentActions := sentThroughApply ++ (if doVerify then ["read_schema"] else []),
          auditWritten := !args.no_audit }

/-!  ### Sample documents used by concrete witnesses  -/

def sampleCompOp : JVal :=
  .obj [("kind", .str "create_component"),
        ("input", .obj [("uuid", .str "U1"), ("libraryUuid", .str "LIB1"),
                        ("x", .int 10), ("y", .int 20)])]

def samplePayloadOnce : JVal := .obj [("operations", .arr [sampleCompOp])]

def samplePayloadTwice : JVal :=
  .obj [("operations", .arr [sampleCompOp, sampleCompOp])]

def sampleSchema : JVal :=
  .obj [("components", .arr
          [.obj [("component", .obj [("uuid", .str "U1"), ("libraryUuid", .str "LIB1")]),
                 ("x", .float 10), ("y", .int 20)]]),
        ("wires", .arr [])]

def sampleReadResult : JVal :=
  .obj [("ok", .bool true), ("result", .obj [("schema", sampleSchema)])]

/-- A runtime-status reply whose capabilities lack `create_wire`. -/
def sampleRuntimeMissingWire : JVal :=
  .obj [("ok", .bool true),
        ("result", .obj [("update_operations",
          .obj [("available", .arr [.str "create_component"])])])]

/-!  ## Theorems

First the order-theoretic facts about the Python tuple comparison that
`_canonical_line` relies on, then one theorem (plus witness or
counterexample where required) per claim.  -/

theorem pairLt_iff {p q : Point} :
    pairLt p q = true ↔ (p.1 < q.1 ∨ (p.1 = q.1 ∧ p.2 < q.2)) := by
  unfold pairLt
  split_ifs with h1 h2 <;> simp [*]

theorem pairLt_asymm {p q : Point} (h : pairLt p q = true) : pairLt q p = false := by
  cases ht : pairLt q p with
  | false => rfl
  | true =>
    exfalso
    rw [pairLt_iff] at h ht
    rcases h with h | ⟨he, h⟩ <;> rcases ht with h2 | ⟨he2, h2⟩ <;> linarith

theorem pairLt_total {p q : Point} (hne : p ≠ q) (h : pairLt p q = false) :
    pairLt q p = true := by
  have h' : ¬ (p.1 < q.1 ∨ (p.1 = q.1 ∧ p.2 < q.2)) := by
    intro hc
    rw [← pairLt_iff] at hc
    rw [h] at hc
    exact Bool.false_ne_true hc
  rcases not_or.mp h' with ⟨h1, h2⟩
  rw [pairLt_iff]
  rcases lt_trichotomy p.1 q.1 with hlt | heq | hgt
  · exact absurd hlt h1
  · have hne2 : p.2 ≠ q.2 := fun h22 => hne (Prod.ext_iff.mpr ⟨heq, h22⟩)
    rcases lt_trichotomy p.2 q.2 with hlt2 | heq2 | hgt2
    · exact absurd (And.intro heq hlt2) h2
    · exact absurd heq2 hne2
    · exact Or.inr ⟨heq.symm, hgt2⟩
  · exact Or.inl hgt

theorem lineLe_total : ∀ (a b : List Point), lineLe a b = false → lineLe b a = true := by
  intro a
  induction a with
  | nil => intro b h; simp [lineLe] at h
  | cons p ps ih =>
    intro b h
    cases b with
    | nil => simp [lineLe]
    | cons q qs =>
      by_cases hpq : p = q
      · subst hpq
        simp only [lineLe, if_pos rfl] at h ⊢
        exact ih qs h
      · simp only [lineLe, if_neg hpq] at h
        have hqp : ¬ (q = p) := fun hc => hpq hc.symm
        simp only [lineLe, if_neg hqp]
        exact pairLt_total hpq h

theorem lineLe_antisymm : ∀ (a b : List Point),
    lineLe a b = true → lineLe b a = true → a = b := by
  intro a
  induction a with
  | nil =>
    intro b h1 h2
    cases b with
    | nil => rfl
    | cons q qs => simp [lineLe] at h2
  | cons p ps ih =>
    intro b h1 h2
    cases b with
    | nil => simp [lineLe] at h1
    | cons q qs =>
      by_cases hpq : p = q
      · subst hpq
        simp only [lineLe, if_pos rfl] at h1 h2
        rw [ih qs h1 h2]
      · simp only [lineLe, if_neg hpq] at h1
        have hqp : ¬ (q = p) := fun hc => hpq hc.symm
        simp only [lineLe, if_neg hqp] at h2
        rw [pairLt_asymm h1] at h2
        exact Bool.noConfusion h2

theorem canonPoints_reverse (ps : List Point) :
    canonPoints ps.reverse = canonPoints ps := by
  unfold canonPoints
  rw [List.reverse_reverse]
  cases h1 : lineLe ps ps.reverse with
  | false =>
    have h2 : lineLe ps.reverse ps = true := lineLe_total _ _ h1
    simp [h1, h2]
  | true =>
    cases h2 : lineLe ps.reverse ps with
    | false => simp [h1, h2]
    | true =>
      simp only [h1, h2, if_true]
      exact (lineLe_antisymm _ _ h1 h2).symm

theorem canonPoints_cases (ps : List Point) :
    canonPoints ps = ps ∨ canonPoints ps = ps.reverse := by
  unfold canonPoints
  split_ifs <;> simp

/-- C6: the canonical wire key is direction-independent - a point
sequence and its point-order reversal canonicalize to the same key;
sequences that are neither equal nor reversals of one another have
different keys; and concretely `_canonical_line([0,0,10,0]) =
_canonical_line([10,0,0,0])` while `_canonical_line([0,0,10,0]) ≠
_canonical_line([0,0,10,5])`. -/
theorem canonical_key_direction_independent :
    (∀ ps : List Point, canonPoints ps.reverse = canonPoints ps) ∧
    (∀ ps qs : List Point, canonPoints ps = canonPoints qs → ps = qs ∨ ps = qs.reverse) ∧
    canonicalLine (.arr [.int 0, .int 0, .int 10, .int 0])
      = canonicalLine (.arr [.int 10, .int 0, .int 0, .int 0]) ∧
    canonicalLine (.arr [.int 0, .int 0, .int 10, .int 0])
      ≠ canonicalLine (.arr [.int 0, .int 0, .int 10, .int 5]) := by
  refine ⟨canonPoints_reverse, ?_, ?_, ?_⟩
  · intro ps qs h
    rcases canonPoints_cases ps with hp | hp <;> rcases canonPoints_cases qs with hq | hq
    · left; rw [← hp, h, hq]
    · right; rw [← hp, h, hq]
    · right
      have hrev : ps.reverse = qs := by rw [← hp, h, hq]
      rw [← hrev, List.reverse_reverse]
    · left
      have hrev : ps.reverse = qs.reverse := by rw [← hp, h, hq]
      have := congrArg List.reverse hrev
      simpa [List.reverse_reverse] using this
  · decide
  · decide

/-- Witness for C6: the direction-independence part applied to the two
concrete point sequences of the spec example. -/
theorem canonical_key_direction_independent_witness :
    ([((0 : ℚ), (0 : ℚ)), ((10 : ℚ), (0 : ℚ))] : List Point)
        = [((10 : ℚ), (0 : ℚ)), ((0 : ℚ), (0 : ℚ))]
      ∨ ([((0 : ℚ), (0 : ℚ)), ((10 : ℚ), (0 : ℚ))] : List Point)
        = ([((10 : ℚ), (0 : ℚ)), ((0 : ℚ), (0 : ℚ))] : List Point).reverse :=
  canonical_key_direction_independent.2.1 _ _ (by decide)

/-!  Lemmas about `intify`, the integral-float collapse substitution.  -/

theorem intifyList_length : ∀ xs : List JVal, (intifyList xs).length = xs.length := by
  intro xs
  induction xs with
  | nil => simp [intifyList]
  | cons x xs ih => simp [intifyList, ih]

theorem normalizeNumber_intify (v : JVal) :
    normalizeNumber (intify v) = normalizeNumber v := by
  cases v with
  | float q => by_cases h : q.den = 1 <;> simp [intify, normalizeNumber, h]
  | null => simp [intify, normalizeNumber]
  | bool b => simp [intify, normalizeNumber]
  | int n => simp [intify, normalizeNumber]
  | str s => simp [intify, normalizeNumber]
  | arr xs => simp [intify, normalizeNumber]
  | obj fs => simp [intify, normalizeNumber]

theorem intify_isObj (v : JVal) : (intify v).isObj = v.isObj := by
  cases v with
  | float q => by_cases h : q.den = 1 <;> simp [intify, JVal.isObj, h]
  | null => simp [intify, JVal.isObj]
  | bool b => simp [intify, JVal.isObj]
  | int n => simp [intify, JVal.isObj]
  | str s => simp [intify, JVal.isObj]
  | arr xs => simp [intify, JVal.isObj]
  | obj fs => simp [intify, JVal.isObj]

theorem intify_eq_str (v : JVal) (s : String) : intify v = .str s ↔ v = .str s := by
  cases v with
  | float q => by_cases h : q.den = 1 <;> simp [intify, h]
  | null => simp [intify]
  | bool b => simp [intify]
  | int n => simp [intify]
  | str t => simp [intify]
  | arr xs => simp [intify]
  | obj fs => simp [intify]

theorem map_intify_eq_some_str (o : Option JVal) (s : String) :
    o.map intify = some (.str s) ↔ o = some (.str s) := by
  cases o with
  | none => simp
  | some v => simp [intify_eq_str]

theorem asNonemptyStr_map_intify (o : Option JVal) :
    asNonemptyStr (o.map intify) = asNonemptyStr o := by
  cases o with
  | none => rfl
  | some v =>
    cases v with
    | float q => by_cases h : q.den = 1 <;> simp [intify, asNonemptyStr, h]
    | null => simp [intify, asNonemptyStr]
    | bool b => simp [intify, asNonemptyStr]
    | int n => simp [intify, asNonemptyStr]
    | str t => simp [intify, asNonemptyStr]
    | arr xs => simp [intify, asNonemptyStr]
    | obj fs => simp [intify, asNonemptyStr]

theorem bind_normalizeNumber_map_intify (o : Option JVal) :
    (o.map intify).bind normalizeNumber = o.bind normalizeNumber := by
  cases o <;> simp [normalizeNumber_intify]

theorem lookupField_intifyObj (fs : List (String × JVal)) (key : String) :
    lookupField (intifyObj fs) key = (lookupField fs key).map intify := by
  induction fs with
  | nil => simp [intifyObj, lookupField]
  | cons kv rest ih =>
    obtain ⟨k, v⟩ := kv
    by_cases h : k = key <;> simp [intifyObj, lookupField, h, ih]

theorem jget_intify (v : JVal) (key : String) :
    jget (intify v) key = (jget v key).map intify := by
  cases v with
  | float q => by_cases h : q.den = 1 <;> simp [intify, jget, h]
  | null => simp [intify, jget]
  | bool b => simp [intify, jget]
  | int n => simp [intify, jget]
  | str s => simp [intify, jget]
  | arr xs => simp [intify, jget]
  | obj fs => simpa [intify, jget] using lookupField_intifyObj fs key

theorem jgetOr_intify (v : JVal) (key : String) :
    jgetOr (intify v) key = intify (jgetOr v key) := by
  unfold jgetOr
  rw [jget_intify]
  cases jget v key <;> simp [intify]

theorem collectPoints_intify : ∀ xs : List JVal,
    collectPoints (intifyList xs) = collectPoints xs
  | [] => by simp [intifyList, collectPoints]
  | [x] => by simp [intifyList, collectPoints]
  | x :: y :: rest => by
    simp only [intifyList, collectPoints]
    rw [normalizeNumber_intify, normalizeNumber_intify, collectPoints_intify rest]

theorem canonicalLine_intify (v : JVal) : canonicalLine (intify v) = canonicalLine v := by
  cases v with
  | float q => by_cases h : q.den = 1 <;> simp [intify, canonicalLine, h]
  | null => simp [intify, canonicalLine]
  | bool b => simp [intify, canonicalLine]
  | int n => simp [intify, canonicalLine]
  | str s => simp [intify, canonicalLine]
  | obj fs => simp [intify, canonicalLine]
  | arr xs =>
    simp only [intify, canonicalLine]
    rw [intifyList_length, collectPoints_intify]

theorem componentObjOf_intify (item : JVal) :
    componentObjOf (intify item) = intify (componentObjOf item) := by
  unfold componentObjOf
  rw [jget_intify]
  cases h : jget item "component" with
  | none => simp [intify, intifyObj]
  | some c =>
    simp only [Option.map]
    rw [intify_isObj]
    by_cases hc : c.isObj = true
    · simp [hc]
    · simp [hc, intify, intifyObj]

theorem extractCompOp_intify (op : JVal) : extractCompOp (intify op) = extractCompOp op := by
  unfold extractCompOp
  rw [jget_intify, jget_intify]
  simp only [map_intify_eq_some_str]
  by_cases hk : jget op "kind" = some (.str "create_component")
  · simp only [if_pos hk]
    cases hi : jget op "input" with
    | none => simp
    | some input =>
      simp only [Option.map]
      rw [jget_intify, asNonemptyStr_map_intify,
          jget_intify, asNonemptyStr_map_intify,
          jget_intify, bind_normalizeNumber_map_intify,
          jget_intify, bind_normalizeNumber_map_intify]
  · simp only [if_neg hk]

theorem extractWireOp_intify (op : JVal) : extractWireOp (intify op) = extractWireOp op := by
  unfold extractWireOp
  rw [jget_intify, jget_intify]
  simp only [map_intify_eq_some_str]
  by_cases hk : jget op "kind" = some (.str "create_wire")
  · simp only [if_pos hk]
    cases hi : jget op "input" with
    | none => simp
    | some input =>
      simp only [Option.map]
      rw [jget_intify, asNonemptyStr_map_intify, jgetOr_intify, canonicalLine_intify]
  · simp only [if_neg hk]

theorem extractActualComp_intify (item : JVal) :
    extractActualComp (intify item) = extractActualComp item := by
  unfold extractActualComp
  rw [intify_isObj]
  by_cases hobj : item.isObj = true
  · simp only [hobj, Bool.not_true, Bool.false_eq_true, if_false]
    rw [componentObjOf_intify, jget_intify, asNonemptyStr_map_intify,
        jget_intify, asNonemptyStr_map_intify,
        jget_intify, bind_normalizeNumber_map_intify,
        jget_intify, bind_normalizeNumber_map_intify]
  · simp only [Bool.not_eq_true] at hobj
    simp only [hobj, Bool.not_false, if_true]

theorem extractActualWire_intify (item : JVal) :
    extractActualWire (intify item) = extractActualWire item := by
  unfold extractActualWire
  rw [intify_isObj]
  by_cases hobj : item.isObj = true
  · simp only [hobj, Bool.not_true, Bool.false_eq_true, if_false]
    rw [jget_intify, asNonemptyStr_map_intify, jgetOr_intify, canonicalLine_intify]
  · simp only [Bool.not_eq_true] at hobj
    simp only [hobj, Bool.not_false, if_true]

theorem listField_intify (v : JVal) (key : String) :
    listField (intify v) key = intifyList (listField v key) := by
  unfold listField
  rw [jget_intify]
  cases h : jget v key with
  | none => simp [intifyList]
  | some w =>
    cases w with
    | float q => by_cases hq : q.den = 1 <;> simp [intify, intifyList, hq]
    | null => simp [intify, intifyList]
    | bool b => simp [intify, intifyList]
    | int n => simp [intify, intifyList]
    | str s => simp [intify, intifyList]
    | arr l => simp [intify]
    | obj fs => simp [intify, intifyList]

theorem schemaOf_intify (res : JVal) :
    schemaOf (intify res) = (schemaOf res).map intify := by
  unfold schemaOf
  rw [jget_intify]
  cases h1 : jget res "result" with
  | none => simp
  | some r =>
    simp only [Option.map]
    rw [jget_intify]
    cases h2 : jget r "schema" with
    | none => simp
    | some s =>
      simp only [Option.map]
      rw [intify_isObj]
      by_cases hs : s.isObj = true <;> simp [hs]

theorem filterMap_intifyList {β} (f : JVal → Option β) (hf : ∀ v, f (intify v) = f v) :
    ∀ l : List JVal, (intifyList l).filterMap f = l.filterMap f := by
  intro l
  induction l with
  | nil => simp [intifyList]
  | cons x xs ih => simp [intifyList, List.filterMap_cons, hf, ih]

theorem expectedComponents_intify (p : JVal) :
    expectedComponents (intify p) = expectedComponents p := by
  unfold expectedComponents opsList
  rw [listField_intify]
  exact filterMap_intifyList _ extractCompOp_intify _

theorem expectedWires_intify (p : JVal) :
    expectedWires (intify p) = expectedWires p := by
  unfold expectedWires opsList
  rw [listField_intify]
  exact filterMap_intifyList _ extractWireOp_intify _

theorem expectedNets_intify (p : JVal) :
    expectedNets (intify p) = expectedNets p := by
  unfold expectedNets
  rw [expectedWires_intify]

theorem actualComponents_intify (s : JVal) :
    actualComponents (intify s) = actualComponents s := by
  unfold actualComponents
  rw [listField_intify]
  exact filterMap_intifyList _ extractActualComp_intify _

theorem actualWires_intify (s : JVal) :
    actualWires (intify s) = actualWires s := by
  unfold actualWires
  rw [listField_intify]
  exact filterMap_intifyList _ extractActualWire_intify _

theorem actualNets_intify (s : JVal) : actualNets (intify s) = actualNets s := by
  unfold actualNets
  rw [actualWires_intify]

theorem verifyPlan_intify (payload res : JVal) :
    verifyPlanAgainstSchema (intify payload) (intify res)
      = verifyPlanAgainstSchema payload res := by
  unfold verifyPlanAgainstSchema
  rw [schemaOf_intify]
  cases h : schemaOf res with
  | none => rfl
  | some schema =>
    simp only [Option.map]
    rw [expectedComponents_intify, expectedWires_intify, expectedNets_intify,
        actualComponents_intify, actualWires_intify, actualNets_intify]

/-- C7: numeric normalization collapses integral floats to the equal
integer and preserves non-integral values - an integral float and the
equal int normalize identically, `5.0` and `5` yield the same canonical
wire key, `5.5` normalizes to itself and stays non-integral - and the
collapse is invisible to the whole verifier: substituting every
integral float by the equal int anywhere in the operations payload or
in the snapshot leaves the verification report unchanged, so it holds
for every coordinate on both sides. -/
theorem numeric_normalization_collapse :
    (∀ q : ℚ, normalizeNumber (.float q)
        = some (if q.den = 1 then (q.num : ℚ) else q)) ∧
    (∀ n : Int, normalizeNumber (.float (n : ℚ)) = normalizeNumber (.int n)) ∧
    canonicalLine (.arr [.float 5, .int 0, .int 10, .int 0])
      = canonicalLine (.arr [.int 5, .int 0, .int 10, .int 0]) ∧
    (normalizeNumber (.float (mkRat 11 2)) = some (mkRat 11 2)
      ∧ (mkRat 11 2).den = 2) ∧
    (∀ payload res : JVal,
      verifyPlanAgainstSchema (intify payload) (intify res)
        = verifyPlanAgainstSchema payload res) := by
  refine ⟨fun q => rfl, ?_, by decide, by constructor <;> decide, verifyPlan_intify⟩
  intro n
  simp [normalizeNumber]

/-!  The containment characterization of the verification verdict.  -/

theorem reportOk_iff_aux (payload res : JVal) :
    reportOk (verifyPlanAgainstSchema payload res) = true ↔
      ∃ schema, schemaOf res = some schema ∧
        (∀ c ∈ expectedComponents payload, c ∈ actualComponents schema) ∧
        (∀ w ∈ expectedWires payload, w ∈ actualWires schema) ∧
        (∀ n ∈ expectedNets payload, n ∈ actualNets schema) := by
  unfold verifyPlanAgainstSchema
  cases h : schemaOf res with
  | none => simp [reportOk]
  | some schema =>
    simp only [reportOk, Bool.and_eq_true, List.isEmpty_iff, List.filter_eq_nil_iff,
      decide_eq_true_eq, not_not]
    simp [and_assoc]

/-- C2: for every operations payload and snapshot, the verification
verdict is `ok = true` exactly when the snapshot has a schema object
and every expected component tuple, every expected canonical wire key
with its net, and every net referenced by an expected wire is present
in the corresponding actual set built from the snapshot.  The right
hand side constrains the actual sets only from below, so entries
present in the snapshot but not expected can never make `ok` false. -/
theorem verification_ok_iff_containment (payload res : JVal) :
    reportOk (verifyPlanAgainstSchema payload res) = true ↔
      ∃ schema, schemaOf res = some schema ∧
        (∀ c ∈ expectedComponents payload, c ∈ actualComponents schema) ∧
        (∀ w ∈ expectedWires payload, w ∈ actualWires schema) ∧
        (∀ n ∈ expectedNets payload, n ∈ actualNets schema) :=
  reportOk_iff_aux payload res

/-- Witness for C2: the sample payload is contained in the sample
snapshot, so the verdict is ok. -/
theorem verification_ok_iff_containment_witness :
    reportOk (verifyPlanAgainstSchema samplePayloadOnce sampleReadResult) = true :=
  (verification_ok_iff_containment samplePayloadOnce sampleReadResult).mpr
    ⟨sampleSchema, by decide, by decide, by decide, by decide⟩

/-- C10: the verification verdict is a function of the membership sets
of the payload operations and of the snapshot component and wire
entries only - duplicating or reordering either side never changes
`ok`, and one matching actual entry satisfies any number of identical
expected operations. -/
theorem verification_verdict_set_function
    (p₁ p₂ r₁ r₂ s₁ s₂ : JVal)
    (h₁ : schemaOf r₁ = some s₁) (h₂ : schemaOf r₂ = some s₂)
    (hops : ∀ op, op ∈ opsList p₁ ↔ op ∈ opsList p₂)
    (hcomps : ∀ it, it ∈ listField s₁ "components" ↔ it ∈ listField s₂ "components")
    (hwires : ∀ it, it ∈ listField s₁ "wires" ↔ it ∈ listField s₂ "wires") :
    reportOk (verifyPlanAgainstSchema p₁ r₁)
      = reportOk (verifyPlanAgainstSchema p₂ r₂) := by
  have hec : ∀ c, c ∈ expectedComponents p₁ ↔ c ∈ expectedComponents p₂ := by
    intro c
    simp only [expectedComponents, List.mem_filterMap]
    constructor <;> rintro ⟨op, hop, hx⟩
    · exact ⟨op, (hops op).mp hop, hx⟩
    · exact ⟨op, (hops op).mpr hop, hx⟩
  have hew : ∀ w, w ∈ expectedWires p₁ ↔ w ∈ expectedWires p₂ := by
    intro w
    simp only [expectedWires, List.mem_filterMap]
    constructor <;> rintro ⟨op, hop, hx⟩
    · exact ⟨op, (hops op).mp hop, hx⟩
    · exact ⟨op, (hops op).mpr hop, hx⟩
  have hen : ∀ n, n ∈ expectedNets p₁ ↔ n ∈ expectedNets p₂ := by
    intro n
    simp only [expectedNets, List.mem_map]
    constructor <;> rintro ⟨w, hw, hx⟩
    · exact ⟨w, (hew w).mp hw, hx⟩
    · exact ⟨w, (hew w).mpr hw, hx⟩
  have hac : ∀ c, c ∈ actualComponents s₁ ↔ c ∈ actualComponents s₂ := by
    intro c
    simp only [actualComponents, List.mem_filterMap]
    constructor <;> rintro ⟨it, hit, hx⟩
    · exact ⟨it, (hcomps it).mp hit, hx⟩
    · exact ⟨it, (hcomps it).mpr hit, hx⟩
  have haw : ∀ w, w ∈ actualWires s₁ ↔ w ∈ actualWires s₂ := by
    intro w
    simp only [actualWires, List.mem_filterMap]
    constructor <;> rintro ⟨it, hit, hx⟩
    · exact ⟨it, (hwires it).mp hit, hx⟩
    · exact ⟨it, (hwires it).mpr hit, hx⟩
  have han : ∀ n, n ∈ actualNets s₁ ↔ n ∈ actualNets s₂ := by
    intro n
    simp only [actualNets, List.mem_map]
    constructor <;> rintro ⟨w, hw, hx⟩
    · exact ⟨w, (haw w).mp hw, hx⟩
    · exact ⟨w, (haw w).mpr hw, hx⟩
  rw [Bool.eq_iff_iff, reportOk_iff_aux, reportOk_iff_aux]
  constructor <;> rintro ⟨schema, hs, hc, hw, hn⟩
  · rw [h₁] at hs
    obtain rfl : s₁ = schema := by injection hs
    exact ⟨s₂, h₂,
      fun c hcm => (hac c).mp (hc c ((hec c).mpr hcm)),
      fun w hwm => (haw w).mp (hw w ((hew w).mpr hwm)),
      fun n hnm => (han n).mp (hn n ((hen n).mpr hnm))⟩
  · rw [h₂] at hs
    obtain rfl : s₂ = schema := by injection hs
    exact ⟨s₁, h₁,
      fun c hcm => (hac c).mpr (hc c ((hec c).mp hcm)),
      fun w hwm => (haw w).mpr (hw w ((hew w).mp hwm)),
      fun n hnm => (han n).mpr (hn n ((hen n).mp hnm))⟩

/-- Witness for C10: duplicating the single operation of a payload
leaves the verdict unchanged. -/
theorem verification_verdict_set_function_witness :
    reportOk (verifyPlanAgainstSchema samplePayloadOnce sampleReadResult)
      = reportOk (verifyPlanAgainstSchema samplePayloadTwice sampleReadResult) :=
  verification_verdict_set_function samplePayloadOnce samplePayloadTwice
    sampleReadResult sampleReadResult sampleSchema sampleSchema
    (by decide) (by decide)
    (fun op => by
      simp [opsList, listField, samplePayloadOnce, samplePayloadTwice,
        sampleCompOp, jget, lookupField])
    (fun it => Iff.rfl) (fun it => Iff.rfl)

/-- C8: serialization for sending is gated by the fixed action
registry - a command whose action is in `SUPPORTED_ACTIONS` serializes
to its envelope and is handed to the transport, while any other action
is rejected with the `Unsupported action` error independently of the
transport, which is never consulted. -/
theorem action_registry_gates_serialization (c : BridgeCommand) :
    (c.action ∈ SUPPORTED_ACTIONS →
      ∀ post, send_command post c = .ok (post (commandJson c))) ∧
    (c.action ∉ SUPPORTED_ACTIONS →
      ∀ post, send_command post c = .error ("Unsupported action " ++ c.action)) := by
  constructor <;> intro h post <;> simp [send_command, BridgeCommand.to_json, h]

/-- Witness for C8: `read_schema` is accepted, a made-up action is
rejected before transmission. -/
theorem action_registry_gates_serialization_witness :
    send_command (fun j => j) { action := "read_schema", id := "cmd-1" }
        = .ok (commandJson { action := "read_schema", id := "cmd-1" }) ∧
    send_command (fun j => j) { action := "delete_all", id := "cmd-2" }
        = .error ("Unsupported action " ++ "delete_all") :=
  ⟨(action_registry_gates_serialization _).1 (by decide) _,
   (action_registry_gates_serialization _).2 (by decide) _⟩

/-!  Pending-map lemmas for the bridge command path.  -/

theorem pendingLookup_eq_none_of_not_mem (p : List (JVal × FutState)) (k : JVal)
    (h : k ∉ p.map Prod.fst) : pendingLookup p k = none := by
  induction p with
  | nil => rfl
  | cons kv rest ih =>
    obtain ⟨k0, v0⟩ := kv
    simp only [List.map_cons, List.mem_cons, not_or] at h
    have hk : ¬ (k0 = k) := fun hc => h.1 hc.symm
    simp [pendingLookup, hk, ih h.2]

theorem pendingLookup_pendingErase (p : List (JVal × FutState)) (k : JVal)
    (h : (p.map Prod.fst).Nodup) : pendingLookup (pendingErase p k) k = none := by
  induction p with
  | nil => rfl
  | cons kv rest ih =>
    obtain ⟨k0, v0⟩ := kv
    simp only [List.map_cons, List.nodup_cons] at h
    by_cases hk : k0 = k
    · subst hk
      simp only [pendingErase, if_pos rfl]
      exact pendingLookup_eq_none_of_not_mem _ _ h.1
    · simp [pendingErase, pendingLookup, hk, ih h.2]

theorem pendingErase_pendingInsert (p : List (JVal × FutState)) (k : JVal) (v : FutState)
    (h : pendingLookup p k = none) : pendingErase (pendingInsert p k v) k = p := by
  induction p with
  | nil => simp [pendingInsert, pendingErase]
  | cons kv rest ih =>
    obtain ⟨k0, v0⟩ := kv
    by_cases hk : k0 = k
    · subst hk
      simp [pendingLookup] at h
    · simp only [pendingLookup, if_neg hk] at h
      simp [pendingInsert, pendingErase, hk, ih h]

/-- C3: a command whose pending future is not resolved within the
fixed 30-unit deadline receives the 504 timeout response, which is
distinct from every disconnect (502) response; the pending entry under
its id is removed at the timeout; and a result message for that id
arriving afterwards leaves the bridge state unchanged and delivers
nothing to anyone. -/
theorem timeout_removes_pending_and_drops_late_reply
    (st : BridgeSt) (cmdId : JVal) (arrival : Option (ℚ × FutEvent))
    (hnodup : (st.pending.map Prod.fst).Nodup)
    (hto : raceDeadline arrival = none) :
    (handleCommandAwait st cmdId arrival).2 = timeoutResponse ∧
    (∀ msg, (handleCommandAwait st cmdId arrival).2 ≠ disconnectResponse msg) ∧
    pendingLookup (handleCommandAwait st cmdId arrival).1.pending cmdId = none ∧
    (∀ data : JVal, jgetOr data "type" = .str "result" → jgetOr data "id" = cmdId →
      handlePluginMessage (handleCommandAwait st cmdId arrival).1 (some data)
        = ((handleCommandAwait st cmdId arrival).1, none)) := by
  have hst : handleCommandAwait st cmdId arrival
      = ({ st with pending := pendingErase st.pending cmdId }, timeoutResponse) := by
    unfold handleCommandAwait
    rw [hto]
  have hlk : pendingLookup (pendingErase st.pending cmdId) cmdId = none :=
    pendingLookup_pendingErase st.pending cmdId hnodup
  refine ⟨by rw [hst], ?_, ?_, ?_⟩
  · intro msg
    rw [hst]
    simp [timeoutResponse, disconnectResponse, errResp]
  · rw [hst]
    exact hlk
  · intro data htype hid
    rw [hst]
    unfold handlePluginMessage
    simp only [htype, hid]
    simp [hlk]

/-- Witness for C3 at a concrete state with one pending command and no
reply before the deadline. -/
theorem timeout_removes_pending_and_drops_late_reply_witness :
    (handleCommandAwait ⟨true, [], [(.str "a", .waiting)]⟩ (.str "a") none).2
        = timeoutResponse ∧
    pendingLookup (handleCommandAwait ⟨true, [], [(.str "a", .waiting)]⟩
        (.str "a") none).1.pending (.str "a") = none :=
  ⟨(timeout_removes_pending_and_drops_late_reply ⟨true, [], [(.str "a", .waiting)]⟩
      (.str "a") none (by decide) rfl).1,
   (timeout_removes_pending_and_drops_late_reply ⟨true, [], [(.str "a", .waiting)]⟩
      (.str "a") none (by decide) rfl).2.2.1⟩

/-- C5 (amended): with a peer attached, an accepted command registers a
pending entry under its id in the state in which the transmission then
happens; if transmission fails the entry under that id is removed and
the caller gets the 502 transport error, never the timeout response;
the pending map is back to exactly what it was before the call
provided the id was not already pending (a colliding id's earlier
entry is lost, see the counterexample). -/
theorem send_registers_before_transmission
    (st : BridgeSt) (b : JVal) (excMsg : String)
    (hconn : st.pluginConnected = true) (hobj : b.isObj = true)
    (hid : (jgetOr b "id").falsy = false) :
    handleCommandSend st (some b) true excMsg
      = ({ st with pending := pendingInsert st.pending (jgetOr b "id") .waiting },
         .awaitingReply (jgetOr b "id"), [b]) ∧
    (handleCommandSend st (some b) false excMsg).2.1
      = .reply (errResp ("Failed to send to plugin: " ++ excMsg) 502) ∧
    (handleCommandSend st (some b) false excMsg).2.1 ≠ .reply timeoutResponse ∧
    (handleCommandSend st (some b) false excMsg).1.pending
      = pendingErase (pendingInsert st.pending (jgetOr b "id") .waiting) (jgetOr b "id") ∧
    (pendingLookup st.pending (jgetOr b "id") = none →
      (handleCommandSend st (some b) false excMsg).1.pending = st.pending) := by
  have hT : handleCommandSend st (some b) true excMsg
      = ({ st with pending := pendingInsert st.pending (jgetOr b "id") .waiting },
         .awaitingReply (jgetOr b "id"), [b]) := by
    unfold handleCommandSend
    simp [hconn, hobj, hid]
  have hF : handleCommandSend st (some b) false excMsg
      = ({ st with pending := pendingErase (pendingInsert st.pending (jgetOr b "id") .waiting) (jgetOr b "id") },
         .reply (errResp ("Failed to send to plugin: " ++ excMsg) 502), []) := by
    unfold handleCommandSend
    simp [hconn, hobj, hid]
  refine ⟨hT, by rw [hF], ?_, by rw [hF], ?_⟩
  · rw [hF]
    simp [errResp, timeoutResponse]
  · intro hnone
    rw [hF]
    simp [pendingErase_pendingInsert st.pending (jgetOr b "id") .waiting hnone]

/-- Witness for C5 (amended) at a concrete empty state. -/
theorem send_registers_before_transmission_witness :
    handleCommandSend ⟨true, [], []⟩ (some (.obj [("id", .str "a")])) true "x"
      = (⟨true, [], [(.str "a", .waiting)]⟩, .awaitingReply (.str "a"), [.obj [("id", .str "a")]]) ∧
    (handleCommandSend ⟨true, [], []⟩ (some (.obj [("id", .str "a")])) false "x").1.pending
      = ([] : List (JVal × FutState)) :=
  ⟨by
    have h := (send_registers_before_transmission ⟨true, [], []⟩
      (.obj [("id", .str "a")]) "x" rfl rfl (by decide)).1
    simpa using h,
   by
    have h := (send_registers_before_transmission ⟨true, [], []⟩
      (.obj [("id", .str "a")]) "x" rfl rfl (by decide)).2.2.2.2 (by decide)
    simpa using h⟩

/-- Counterexample to C5 as stated: when the command's id is already
pending, a failed transmission does not leave the pending map as it
was before the call - the earlier entry under the id is gone. -/
theorem send_failure_pending_not_restored :
    (handleCommandSend ⟨true, [], [(.str "a", .waiting)]⟩
        (some (.obj [("id", .str "a")])) false "boom").1.pending
      ≠ (⟨true, [], [(.str "a", .waiting)]⟩ : BridgeSt).pending ∧
    (handleCommandSend ⟨true, [], [(.str "a", .waiting)]⟩
        (some (.obj [("id", .str "a")])) false "boom").1.pending = [] := by
  constructor <;> decide

/-- C9 (amended): with a peer attached, a JSON object body without an
`id` field, or with an empty-string `id`, is answered immediately with
the structured 400 `{ok: false}` error; the state is untouched (no
pending entry registered) and nothing is transmitted to the peer. -/
theorem missing_id_rejected_before_registration
    (st : BridgeSt) (b : JVal) (sendOk : Bool) (excMsg : String)
    (hconn : st.pluginConnected = true) (hobj : b.isObj = true)
    (hid : jget b "id" = none ∨ jget b "id" = some (.str "")) :
    handleCommandSend st (some b) sendOk excMsg
      = (st, .reply (errResp "Command must include an id field" 400), []) := by
  have hfal : (jgetOr b "id").falsy = true := by
    rcases hid with h | h
    · simp [jgetOr, h, JVal.falsy]
    · simp [jgetOr, h, JVal.falsy]
      decide
  unfold handleCommandSend
  simp [hconn, hobj, hfal]

/-- Witness for C9 (amended): a body with only an `action` field. -/
theorem missing_id_rejected_before_registration_witness :
    handleCommandSend ⟨true, [], []⟩ (some (.obj [("action", .str "read_schema")])) true ""
      = (⟨true, [], []⟩, .reply (errResp "Command must include an id field" 400), []) :=
  missing_id_rejected_before_registration _ _ _ _ rfl rfl (Or.inl (by decide))

/-- Counterexample to C9 as stated: a JSON array body certainly lacks a
non-empty id field, but with a peer attached it is not answered with a
structured `{ok: false}` error: `body.get("id")` raises an uncaught
`AttributeError` (aiohttp turns it into a plain 500 internal error).
Nothing is registered or transmitted, but the reply shape the claim
promises never happens. -/
theorem nonobject_body_missing_id_raises :
    handleCommandSend ⟨true, [], []⟩ (some (.arr [])) true ""
      = (⟨true, [], []⟩, .raisedAttributeError, []) ∧
    SendPhase.raisedAttributeError
      ≠ .reply (errResp "Command must include an id field" 400) := by
  constructor <;> decide

/-- C1: accepting a new peer connection `c` while a live connection
`old` is attached closes the old connection and runs its teardown to
completion inside the `close()` await: every outstanding pending
request's still-waiting future is failed with the disconnect error
(each one is resolved, so none hangs, and each stays in the ledger, so
none is silently dropped), the pending map is cleared, and afterwards
the new connection is the single attached peer. -/
theorem ws_replacement_fails_pendings_and_attaches_new
    (st : WsState) (old c : Nat)
    (hatt : st.pluginWs = some old) (hopen : old ∉ st.closedConns) :
    (wsAccept st c).pluginWs = some c ∧
    old ∈ (wsAccept st c).closedConns ∧
    (wsAccept st c).pendingKeys = [] ∧
    (wsAccept st c).futures = failPendingFutures st.pendingKeys st.futures ∧
    (∀ k f, (k, f) ∈ st.futures → k ∈ st.pendingKeys → f = FutState.waiting →
      (k, FutState.failedDisconnect "Plugin disconnected") ∈ (wsAccept st c).futures) := by
  have hacc : wsAccept st c
      = { st with pluginWs := some c, pluginMeta := [],
                  closedConns := old :: st.closedConns,
                  futures := failPendingFutures st.pendingKeys st.futures,
                  pendingKeys := [] } := by
    unfold wsAccept wsHandlerCleanup
    rw [hatt]
    simp [hopen]
  refine ⟨by rw [hacc], by rw [hacc]; exact List.mem_cons_self _ _,
    by rw [hacc], by rw [hacc], ?_⟩
  intro k f hmem hkey hw
  subst hw
  rw [hacc]
  show (k, FutState.failedDisconnect "Plugin disconnected")
    ∈ failPendingFutures st.pendingKeys st.futures
  have hpoint : (fun kf : JVal × FutState =>
      if kf.1 ∈ st.pendingKeys ∧ kf.2 = FutState.waiting
      then (kf.1, FutState.failedDisconnect "Plugin disconnected") else kf)
      (k, FutState.waiting)
      = (k, FutState.failedDisconnect "Plugin disconnected") := by
    simp [hkey]
  unfold failPendingFutures
  rw [← hpoint]
  exact List.mem_map_of_mem _ hmem

/-- Witness for C1 at the concrete one-pending state: replacing
connection 1 by connection 2 attaches 2 and fails the pending future. -/
theorem ws_replacement_fails_pendings_and_attaches_new_witness :
    (wsAccept ⟨some 1, [], [], [.str "a"], [(.str "a", .waiting)]⟩ 2).pluginWs = some 2 ∧
    (wsAccept ⟨some 1, [], [], [.str "a"], [(.str "a", .waiting)]⟩ 2).futures
      = [(.str "a", FutState.failedDisconnect "Plugin disconnected")] :=
  ⟨(ws_replacement_fails_pendings_and_attaches_new
      ⟨some 1, [], [], [.str "a"], [(.str "a", .waiting)]⟩ 1 2 rfl (by decide)).1,
   ((ws_replacement_fails_pendings_and_attaches_new
      ⟨some 1, [], [], [.str "a"], [(.str "a", .waiting)]⟩ 1 2 rfl (by decide)).2.2.2.1).trans
     (by decide)⟩

/-- C4 (amended): when the runtime precheck finds the peer's reported
capabilities missing a required operation kind, the flow aborts with
the structured missing-capability error and no `update_schema` command
is ever sent (only the planner's `search_component` lookups and the
`get_runtime_status` query went out); but no audit record is written on
this abort path, even when auditing was not suppressed. -/
theorem missing_capability_aborts_without_audit
    (args : ApplyArgs) (pl : Planned) (nSearches : Nat)
    (rt pdr ar rr : JVal)
    (hgate : args.dry_run = true ∨ args.confirm = true)
    (hok : (jgetOr rt "ok").falsy = false)
    (hmiss : (REQUIRED_UPDATE_OPS.filter
        (fun o => decide (o ∉ extractAvailableUpdateOperations rt))).isEmpty = false) :
    cmdApplyRequirements args (.ok pl) nSearches rt pdr ar rr
      = { output := errOut "Runtime precheck failed: required operations unavailable"
            (.obj [("missing_operations", .arr ((REQUIRED_UPDATE_OPS.filter
                      (fun o => decide (o ∉ extractAvailableUpdateOperations rt))).map .str)),
                   ("available_operations", .arr ((sortStrings
                      (extractAvailableUpdateOperations rt).dedup).map .str)),
                   ("runtime_result", rt)]),
          exitCode := 1,
          sentActions := List.replicate nSearches "search_component" ++ ["get_runtime_status"],
          auditWritten := false } ∧
    "update_schema" ∉ (cmdApplyRequirements args (.ok pl) nSearches rt pdr ar rr).sentActions ∧
    (cmdApplyRequirements args (.ok pl) nSearches rt pdr ar rr).auditWritten = false := by
  have hgate2 : (!args.dry_run && !args.confirm) = false := by
    rcases hgate with h | h <;> simp [h]
  have hmain : cmdApplyRequirements args (.ok pl) nSearches rt pdr ar rr
      = { output := errOut "Runtime precheck failed: required operations unavailable"
            (.obj [("missing_operations", .arr ((REQUIRED_UPDATE_OPS.filter
                      (fun o => decide (o ∉ extractAvailableUpdateOperations rt))).map .str)),
                   ("available_operations", .arr ((sortStrings
                      (extractAvailableUpdateOperations rt).dedup).map .str)),
                   ("runtime_result", rt)]),
          exitCode := 1,
          sentActions := List.replicate nSearches "search_component" ++ ["get_runtime_status"],
          auditWritten := false } := by
    unfold cmdApplyRequirements
    simp only [hgate2, hok, hmiss, Bool.not_false, Bool.false_eq_true, if_false, if_true]
  refine ⟨hmain, ?_, by rw [hmain]⟩
  rw [hmain]
  simp [List.mem_append, List.mem_replicate]

/-- Witness for C4 (amended) at a concrete runtime-status reply whose
capabilities lack `create_wire`. -/
theorem missing_capability_aborts_without_audit_witness :
    "update_schema" ∉ (cmdApplyRequirements { confirm := true }
        (.ok ⟨.obj [], .null, .null⟩) 0 sampleRuntimeMissingWire .null .null .null).sentActions ∧
    (cmdApplyRequirements { confirm := true }
        (.ok ⟨.obj [], .null, .null⟩) 0 sampleRuntimeMissingWire .null .null .null).auditWritten
      = false :=
  ⟨(missing_capability_aborts_without_audit _ _ _ _ _ _ _
      (Or.inr rfl) (by decide) (by decide)).2.1,
   (missing_capability_aborts_without_audit _ _ _ _ _ _ _
      (Or.inr rfl) (by decide) (by decide)).2.2⟩

/-- Counterexample to C4 as stated: the missing-capability abort with
auditing not suppressed still writes no audit record. -/
theorem precheck_abort_writes_no_audit :
    (cmdApplyRequirements { confirm := true } (.ok ⟨.obj [], .null, .null⟩) 0
        sampleRuntimeMissingWire .null .null .null).auditWritten = false ∧
    ({ confirm := true } : ApplyArgs).no_audit = false := by
  constructor <;> decide
